import Mathlib

/-!  Verification of the dunkelflaute energy-balance model (src/model.py, src/main.py).

The repository builds a single-bus PyPSA network from a profile table and scenario
parameters, solves a linear program with an external solver, and post-processes the
solution into a flat result table.  This file gives a shallow embedding of that code
over the rationals: the profile table is an ordered association list of named columns
(a pandas DataFrame), the constructed network is the fixed component set that
`Model.__init__` always creates, the LP is represented by its feasible set and cost
function, and the result extraction follows `Model.get_results` line by line,
including its pandas aliasing behaviour. -/

/-! ## List helpers (pandas column arithmetic) -/

/-- Read entry `t` of a column, defaulting to 0 (columns are index-aligned in pandas;
all accesses in the theorems are guarded by length facts). -/
def nth (xs : List ℚ) (t : Nat) : ℚ := xs.getD t 0

/-- Elementwise sum of two columns. -/
def addL (a b : List ℚ) : List ℚ := List.zipWith (· + ·) a b

/-- Elementwise difference of two columns. -/
def subL (a b : List ℚ) : List ℚ := List.zipWith (· - ·) a b

/-- Sum of `f t` for `t` ranging over the `T` snapshots. -/
def sumOver (T : Nat) (f : Nat → ℚ) : ℚ := ((List.range T).map f).sum

theorem nth_zipWith (f : ℚ → ℚ → ℚ) :
    ∀ (a b : List ℚ) (t : Nat), t < a.length → t < b.length →
      nth (List.zipWith f a b) t = f (nth a t) (nth b t)
  | [], _, _, ha, _ => absurd ha (Nat.not_lt_zero _)
  | _ :: _, [], _, _, hb => absurd hb (Nat.not_lt_zero _)
  | _ :: _, _ :: _, 0, _, _ => rfl
  | _ :: as, _ :: bs, t + 1, ha, hb =>
      nth_zipWith f as bs t (Nat.lt_of_succ_lt_succ ha) (Nat.lt_of_succ_lt_succ hb)

theorem nth_addL (a b : List ℚ) (t : Nat) (ha : t < a.length) (hb : t < b.length) :
    nth (addL a b) t = nth a t + nth b t := nth_zipWith _ a b t ha hb

theorem nth_subL (a b : List ℚ) (t : Nat) (ha : t < a.length) (hb : t < b.length) :
    nth (subL a b) t = nth a t - nth b t := nth_zipWith _ a b t ha hb

theorem nth_map (f : ℚ → ℚ) :
    ∀ (l : List ℚ) (t : Nat), t < l.length → nth (l.map f) t = f (nth l t)
  | [], _, h => absurd h (Nat.not_lt_zero _)
  | _ :: _, 0, _ => rfl
  | _ :: l, t + 1, h => nth_map f l t (Nat.lt_of_succ_lt_succ h)

theorem nth_replicate (n t : Nat) : nth (List.replicate n (0 : ℚ)) t = 0 := by
  induction n generalizing t with
  | zero => cases t <;> rfl
  | succ n ih => cases t with
    | zero => rfl
    | succ t => exact ih t

theorem length_addL (a b : List ℚ) : (addL a b).length = min a.length b.length :=
  List.length_zipWith ..

theorem length_subL (a b : List ℚ) : (subL a b).length = min a.length b.length :=
  List.length_zipWith ..

/-! ## DataFrames

A minimal model of the pandas objects the code manipulates: an ordered list of named
numeric columns sharing one index.  `get?` is `df[name]` (raising `KeyError` when the
column is absent), `setCol` is `df[name] = series` (replace in place, or append a new
column at the end). -/

/-- The error the source can actually raise during these operations: a pandas
`KeyError` on a missing column. -/
inductive PyError where
  | keyError (key : String)
deriving DecidableEq

structure DataFrame where
  columns : List (String × List ℚ)
deriving DecidableEq

/-- Column lookup, `df[name]` as an `Option`. -/
def DataFrame.get? (df : DataFrame) (name : String) : Option (List ℚ) :=
  (df.columns.find? (fun c => c.1 == name)).map (fun c => c.2)

/-- Column assignment `df[name] = v`: overwrite in place when the column exists,
append at the end otherwise (pandas semantics). -/
def DataFrame.setCol (df : DataFrame) (name : String) (v : List ℚ) : DataFrame :=
  if df.columns.any (fun c => c.1 == name) then
    ⟨df.columns.map (fun c => if c.1 == name then (name, v) else c)⟩
  else ⟨df.columns ++ [(name, v)]⟩

/-- Number of rows: pandas columns share one index, so the first column's length
(0 for a table with no columns, like `pd.DataFrame()` in `main`). -/
def DataFrame.nrows (df : DataFrame) : Nat :=
  match df.columns with
  | [] => 0
  | c :: _ => c.2.length

/-- Well-formedness of a pandas DataFrame: every column has the index's length. -/
def DataFrame.WF (df : DataFrame) : Prop :=
  ∀ c ∈ df.columns, c.2.length = df.nrows

instance (df : DataFrame) : Decidable df.WF := by
  unfold DataFrame.WF; infer_instance

/-- `df[name]`, raising `KeyError` when the column is missing. -/
def getCol (df : DataFrame) (name : String) : Except PyError (List ℚ) :=
  match df.get? name with
  | some v => Except.ok v
  | none => Except.error (PyError.keyError name)

theorem getCol_ok {df : DataFrame} {name : String} {l : List ℚ}
    (h : getCol df name = Except.ok l) : df.get? name = some l := by
  unfold getCol at h
  cases hg : df.get? name with
  | none => rw [hg] at h; exact absurd h (by simp)
  | some v => rw [hg] at h; cases h; rfl

theorem WF_get?_length {df : DataFrame} {name : String} {l : List ℚ}
    (hWF : df.WF) (h : df.get? name = some l) : l.length = df.nrows := by
  unfold DataFrame.get? at h
  cases hf : df.columns.find? (fun c => c.1 == name) with
  | none => rw [hf] at h; exact absurd h (by simp)
  | some c =>
    rw [hf] at h
    have hc : c ∈ df.columns := List.mem_of_find?_eq_some hf
    have : c.2 = l := by simpa using h
    rw [← this]; exact hWF c hc

/-! ## The network built by `Model.__init__`

`Model.__init__` always creates the same component set: one bus, the five renewable
generators with time-varying `p_max_pu`, the capacity-extendable `residual_load`
generator, one load, and one cyclic battery storage unit.  We record the static
attributes pypsa stores for each component. -/

structure GeneratorStatic where
  p_nom : ℚ
  marginal_cost : ℚ
  capital_cost : ℚ
  p_nom_min : ℚ
  p_nom_extendable : Bool
deriving DecidableEq

structure StorageUnitStatic where
  p_nom : ℚ
  max_hours : ℚ
  cyclic_state_of_charge : Bool
  efficiency_store : ℚ
  efficiency_dispatch : ℚ
  standing_loss : ℚ
deriving DecidableEq

structure Network where
  /-- Number of snapshots (`set_snapshots(df_profiles.index)`). -/
  T : Nat
  pv : GeneratorStatic
  wind_on : GeneratorStatic
  wind_off : GeneratorStatic
  biomass : GeneratorStatic
  hydro : GeneratorStatic
  residual_load : GeneratorStatic
  /-- Time-varying `p_max_pu` series of the five renewables (`generators_t.p_max_pu`). -/
  pv_pu : List ℚ
  wind_on_pu : List ℚ
  wind_off_pu : List ℚ
  biomass_pu : List ℚ
  hydro_pu : List ℚ
  /-- The load's `p_set` series: `df_profiles["load_profile"] * load`. -/
  load_p_set : List ℚ
  batteries : StorageUnitStatic
deriving DecidableEq

/-- The scenario parameters of `Model.__init__` (everything except `df_profiles`). -/
structure ModelArgs where
  load : ℚ
  pv_p_inst : ℚ
  wind_on_p_inst : ℚ
  wind_off_p_inst : ℚ
  bio_p_inst : ℚ
  hydro_p_inst : ℚ
  batteries_p_inst : ℚ
  batteries_duration : ℚ
  charge_efficiency : ℚ
  discharge_efficiency : ℚ
  marginal_cost_residual : ℚ
  capital_cost_residual : ℚ
  min_installed_cap_residual : ℚ
deriving DecidableEq

/-- The network `Model.__init__` assembles once all profile columns have been read:
five fixed renewables at marginal cost 0.1, the extendable residual generator with
`p_nom_min = min_installed_cap_residual`, the load at `load_profile * load`, and the
battery with the hard-coded `standing_loss=0.0001`. -/
def mkNet (df : DataFrame) (a : ModelArgs)
    (pvl wonl woffl biol hydl loadl : List ℚ) : Network :=
  { T := df.nrows
    pv := { p_nom := a.pv_p_inst, marginal_cost := 0.1, capital_cost := 0,
            p_nom_min := 0, p_nom_extendable := false }
    wind_on := { p_nom := a.wind_on_p_inst, marginal_cost := 0.1, capital_cost := 0,
                 p_nom_min := 0, p_nom_extendable := false }
    wind_off := { p_nom := a.wind_off_p_inst, marginal_cost := 0.1, capital_cost := 0,
                  p_nom_min := 0, p_nom_extendable := false }
    biomass := { p_nom := a.bio_p_inst, marginal_cost := 0.1, capital_cost := 0,
                 p_nom_min := 0, p_nom_extendable := false }
    hydro := { p_nom := a.hydro_p_inst, marginal_cost := 0.1, capital_cost := 0,
               p_nom_min := 0, p_nom_extendable := false }
    residual_load := { p_nom := 0, marginal_cost := a.marginal_cost_residual,
                       capital_cost := a.capital_cost_residual,
                       p_nom_min := a.min_installed_cap_residual,
                       p_nom_extendable := true }
    pv_pu := pvl
    wind_on_pu := wonl
    wind_off_pu := woffl
    biomass_pu := biol
    hydro_pu := hydl
    load_p_set := loadl.map (fun x => x * a.load)
    batteries := { p_nom := a.batteries_p_inst, max_hours := a.batteries_duration,
                   cyclic_state_of_charge := true,
                   efficiency_store := a.charge_efficiency,
                   efficiency_dispatch := a.discharge_efficiency,
                   standing_loss := 0.0001 } }

/-- `Model.__init__` of src/model.py: reads the six profile columns in source order
(`add_generators` reads the five renewable profiles, then the load component reads
`load_profile`), each access raising `KeyError` when the column is absent, then
assembles the network.  No other validation is performed. -/
def Model.build (df : DataFrame) (a : ModelArgs) : Except PyError Network := do
  let pvl ← getCol df "pv_profile"
  let wonl ← getCol df "wind_on_profile"
  let woffl ← getCol df "wind_off_profile"
  let biol ← getCol df "biomass_profile"
  let hydl ← getCol df "hydro_profile"
  let loadl ← getCol df "load_profile"
  return mkNet df a pvl wonl woffl biol hydl loadl

/-- Successful construction determines the network completely: each profile column
was found and the network is `mkNet` of those columns. -/
theorem build_ok_elim {df : DataFrame} {a : ModelArgs} {net : Network}
    (hb : Model.build df a = Except.ok net) :
    ∃ pvl wonl woffl biol hydl loadl,
      df.get? "pv_profile" = some pvl ∧
      df.get? "wind_on_profile" = some wonl ∧
      df.get? "wind_off_profile" = some woffl ∧
      df.get? "biomass_profile" = some biol ∧
      df.get? "hydro_profile" = some hydl ∧
      df.get? "load_profile" = some loadl ∧
      net = mkNet df a pvl wonl woffl biol hydl loadl := by
  unfold Model.build at hb
  cases h1 : getCol df "pv_profile" with
  | error e => rw [h1] at hb; exact absurd hb (by simp [Bind.bind, Except.bind])
  | ok pvl =>
  rw [h1] at hb
  cases h2 : getCol df "wind_on_profile" with
  | error e => rw [h2] at hb; exact absurd hb (by simp [Bind.bind, Except.bind])
  | ok wonl =>
  rw [h2] at hb
  cases h3 : getCol df "wind_off_profile" with
  | error e => rw [h3] at hb; exact absurd hb (by simp [Bind.bind, Except.bind])
  | ok woffl =>
  rw [h3] at hb
  cases h4 : getCol df "biomass_profile" with
  | error e => rw [h4] at hb; exact absurd hb (by simp [Bind.bind, Except.bind])
  | ok biol =>
  rw [h4] at hb
  cases h5 : getCol df "hydro_profile" with
  | error e => rw [h5] at hb; exact absurd hb (by simp [Bind.bind, Except.bind])
  | ok hydl =>
  rw [h5] at hb
  cases h6 : getCol df "load_profile" with
  | error e => rw [h6] at hb; exact absurd hb (by simp [Bind.bind, Except.bind])
  | ok loadl =>
  rw [h6] at hb
  refine ⟨pvl, wonl, woffl, biol, hydl, loadl,
    getCol_ok h1, getCol_ok h2, getCol_ok h3, getCol_ok h4, getCol_ok h5, getCol_ok h6, ?_⟩
  have : (pure (mkNet df a pvl wonl woffl biol hydl loadl) :
      Except PyError Network) = Except.ok net := hb
  simpa [pure, Except.pure] using this.symm

/-! ## Solutions of the LP

A solution assigns every decision variable: the six generator dispatch series, the
battery store/dispatch/state-of-charge series, and the optimized capacity of the
extendable residual generator. -/

structure Dispatch where
  pv_p : List ℚ
  wind_on_p : List ℚ
  wind_off_p : List ℚ
  biomass_p : List ℚ
  hydro_p : List ℚ
  residual_p : List ℚ
  bat_store : List ℚ
  bat_dispatch : List ℚ
  bat_soc : List ℚ
  residual_p_nom_opt : ℚ
deriving DecidableEq

/-- The snapshot index preceding `t` in the cyclic state-of-charge recursion:
`t - 1` for `t > 0`, and the last snapshot for `t = 0`. -/
def prevIdx (T t : Nat) : Nat := (t + T - 1) % T

/-- The time-varying output frames pypsa stores on the network: `generators_t.p`,
`storage_units_t.p` and `loads_t.p`.  All three are empty before a successful solve. -/
structure NetworkTState where
  generators_t_p : DataFrame
  storage_units_t_p : DataFrame
  loads_t_p : DataFrame
deriving DecidableEq

/-- Network output state before any (successful) solve: the frames have no columns. -/
def initialTState : NetworkTState := ⟨⟨[]⟩, ⟨[]⟩, ⟨[]⟩⟩

/-- Network output state after a successful solve writes the assignment back:
one `generators_t.p` column per generator in addition order, the storage unit's net
power `p_dispatch - p_store` (positive = discharge), and the load series `p_set`. -/
def afterSolve (net : Network) (s : Dispatch) : NetworkTState :=
  { generators_t_p := ⟨[("pv", s.pv_p), ("wind_on", s.wind_on_p),
      ("wind_off", s.wind_off_p), ("biomass", s.biomass_p), ("hydro", s.hydro_p),
      ("residual_load", s.residual_p)]⟩
    storage_units_t_p := ⟨[("batteries", subL s.bat_dispatch s.bat_store)]⟩
    loads_t_p := ⟨[("load", net.load_p_set)]⟩ }

/-! ## Result extraction (`Model.get_results`) -/

/-- The columns of `df_result` as built by `Model.get_results`. -/
structure ResultTable where
  pv : List ℚ
  wind_on : List ℚ
  wind_off : List ℚ
  biomass : List ℚ
  hydro : List ℚ
  batteries : List ℚ
  load : List ℚ
  curtailed_re : List ℚ
  residual_load : List ℚ
deriving DecidableEq

/-- `Model.get_results` of src/model.py, translated statement by statement.
`df_power_availability` is a fresh frame (`generators_t.p_max_pu * generators.p_nom`;
only the five renewables have time-varying `p_max_pu` columns), but
`df_actual_generation` ALIASES the network's stored `generators_t.p`, so the column
assignment `df_actual_generation["actual_re_generation"] = ...` mutates the network
state; the updated state is returned alongside the table. -/
def Model.get_results (net : Network) (st : NetworkTState) :
    Except PyError (ResultTable × NetworkTState) := do
  let avail_pv := net.pv_pu.map (fun x => x * net.pv.p_nom)
  let avail_won := net.wind_on_pu.map (fun x => x * net.wind_on.p_nom)
  let avail_woff := net.wind_off_pu.map (fun x => x * net.wind_off.p_nom)
  let avail_bio := net.biomass_pu.map (fun x => x * net.biomass.p_nom)
  let avail_hyd := net.hydro_pu.map (fun x => x * net.hydro.p_nom)
  let re_power_availability :=
    addL (addL (addL (addL avail_pv avail_won) avail_woff) avail_bio) avail_hyd
  let pv_p ← getCol st.generators_t_p "pv"
  let won_p ← getCol st.generators_t_p "wind_on"
  let woff_p ← getCol st.generators_t_p "wind_off"
  let bio_p ← getCol st.generators_t_p "biomass"
  let hyd_p ← getCol st.generators_t_p "hydro"
  let actual_re_generation := addL (addL (addL (addL pv_p won_p) woff_p) bio_p) hyd_p
  let gen_t := st.generators_t_p.setCol "actual_re_generation" actual_re_generation
  let bat ← getCol st.storage_units_t_p "batteries"
  let loadp ← getCol st.loads_t_p "load"
  let tbl : ResultTable :=
    { pv := avail_pv, wind_on := avail_won, wind_off := avail_woff,
      biomass := avail_bio, hydro := avail_hyd, batteries := bat, load := loadp,
      curtailed_re := subL re_power_availability actual_re_generation,
      residual_load := subL (subL loadp re_power_availability) bat }
  return (tbl, { st with generators_t_p := gen_t })

/-- Total available renewable power per snapshot (`re_power_availability`). -/
def reAvail (net : Network) : List ℚ :=
  addL (addL (addL (addL (net.pv_pu.map (fun x => x * net.pv.p_nom))
    (net.wind_on_pu.map (fun x => x * net.wind_on.p_nom)))
    (net.wind_off_pu.map (fun x => x * net.wind_off.p_nom)))
    (net.biomass_pu.map (fun x => x * net.biomass.p_nom)))
    (net.hydro_pu.map (fun x => x * net.hydro.p_nom))

/-- Total dispatched renewable power per snapshot (`actual_re_generation`). -/
def dispatchedRE (s : Dispatch) : List ℚ :=
  addL (addL (addL (addL s.pv_p s.wind_on_p) s.wind_off_p) s.biomass_p) s.hydro_p

/-- The table `Model.get_results` produces from a freshly solved network. -/
def solvedTable (net : Network) (s : Dispatch) : ResultTable :=
  { pv := net.pv_pu.map (fun x => x * net.pv.p_nom)
    wind_on := net.wind_on_pu.map (fun x => x * net.wind_on.p_nom)
    wind_off := net.wind_off_pu.map (fun x => x * net.wind_off.p_nom)
    biomass := net.biomass_pu.map (fun x => x * net.biomass.p_nom)
    hydro := net.hydro_pu.map (fun x => x * net.hydro.p_nom)
    batteries := subL s.bat_dispatch s.bat_store
    load := net.load_p_set
    curtailed_re := subL (reAvail net) (dispatchedRE s)
    residual_load := subL (subL net.load_p_set (reAvail net)) (subL s.bat_dispatch s.bat_store) }

/-- On a freshly solved network, result extraction succeeds, returns `solvedTable`,
and its single side effect is appending the `actual_re_generation` column to the
stored `generators_t.p` frame. -/
theorem get_results_afterSolve (net : Network) (s : Dispatch) :
    Model.get_results net (afterSolve net s) =
      Except.ok (solvedTable net s,
        { afterSolve net s with
          generators_t_p :=
            (afterSolve net s).generators_t_p.setCol "actual_re_generation"
              (dispatchedRE s) }) := rfl

/-! ## Feasibility, cost and optimality of the LP

These are the constraints pypsa generates for exactly the components `Model.__init__`
adds: dispatch bounds `0 ≤ p ≤ p_nom * p_max_pu` for the five fixed renewables,
`0 ≤ p ≤ p_nom_opt` and `p_nom_opt ≥ p_nom_min` for the extendable residual
generator, battery power and state-of-charge bounds, the cyclic state-of-charge
recursion with standing loss and charge/discharge efficiencies, and the nodal
energy balance at the single bus. -/

def Feasible (net : Network) (s : Dispatch) : Prop :=
  s.pv_p.length = net.T ∧ s.wind_on_p.length = net.T ∧ s.wind_off_p.length = net.T ∧
  s.biomass_p.length = net.T ∧ s.hydro_p.length = net.T ∧ s.residual_p.length = net.T ∧
  s.bat_store.length = net.T ∧ s.bat_dispatch.length = net.T ∧ s.bat_soc.length = net.T ∧
  net.residual_load.p_nom_min ≤ s.residual_p_nom_opt ∧
  (∀ t, t < net.T →
    (0 ≤ nth s.pv_p t ∧ nth s.pv_p t ≤ net.pv.p_nom * nth net.pv_pu t) ∧
    (0 ≤ nth s.wind_on_p t ∧ nth s.wind_on_p t ≤ net.wind_on.p_nom * nth net.wind_on_pu t) ∧
    (0 ≤ nth s.wind_off_p t ∧ nth s.wind_off_p t ≤ net.wind_off.p_nom * nth net.wind_off_pu t) ∧
    (0 ≤ nth s.biomass_p t ∧ nth s.biomass_p t ≤ net.biomass.p_nom * nth net.biomass_pu t) ∧
    (0 ≤ nth s.hydro_p t ∧ nth s.hydro_p t ≤ net.hydro.p_nom * nth net.hydro_pu t) ∧
    (0 ≤ nth s.residual_p t ∧ nth s.residual_p t ≤ s.residual_p_nom_opt) ∧
    (0 ≤ nth s.bat_store t ∧ nth s.bat_store t ≤ net.batteries.p_nom) ∧
    (0 ≤ nth s.bat_dispatch t ∧ nth s.bat_dispatch t ≤ net.batteries.p_nom) ∧
    (0 ≤ nth s.bat_soc t ∧ nth s.bat_soc t ≤ net.batteries.max_hours * net.batteries.p_nom) ∧
    nth s.bat_soc t = (1 - net.batteries.standing_loss) * nth s.bat_soc (prevIdx net.T t)
      + net.batteries.efficiency_store * nth s.bat_store t
      - nth s.bat_dispatch t / net.batteries.efficiency_dispatch ∧
    nth s.pv_p t + nth s.wind_on_p t + nth s.wind_off_p t + nth s.biomass_p t
      + nth s.hydro_p t + nth s.residual_p t
      + (nth s.bat_dispatch t - nth s.bat_store t) = nth net.load_p_set t)

instance (net : Network) (s : Dispatch) : Decidable (Feasible net s) := by
  unfold Feasible; infer_instance

/-- The LP objective: marginal cost times dispatch for every generator, plus capital
cost times optimized capacity of the extendable residual generator. -/
def cost (net : Network) (s : Dispatch) : ℚ :=
  sumOver net.T (fun t =>
    net.pv.marginal_cost * nth s.pv_p t
    + net.wind_on.marginal_cost * nth s.wind_on_p t
    + net.wind_off.marginal_cost * nth s.wind_off_p t
    + net.biomass.marginal_cost * nth s.biomass_p t
    + net.hydro.marginal_cost * nth s.hydro_p t
    + net.residual_load.marginal_cost * nth s.residual_p t)
  + net.residual_load.capital_cost * s.residual_p_nom_opt

/-- A solution the solver may return for a solved model: feasible and of minimal cost. -/
def Optimal (net : Network) (s : Dispatch) : Prop :=
  Feasible net s ∧ ∀ s2, Feasible net s2 → cost net s ≤ cost net s2

/-! ## The optimizer interface and `main` -/

/-- Modelled from the spec: the discriminated outcome of the external LP solve
(`network.optimize.solve_model(solver_name="highs")`, delegated wholly to
pypsa/linopy/HiGHS, which is not part of this repository).  A solved outcome carries
the assignment of every decision variable; the three failure outcomes carry none. -/
inductive SolverOutcome where
  | solved (assignment : Dispatch)
  | infeasible
  | unbounded
  | solver_error
deriving DecidableEq

/-- Modelled from the spec: the `(status, termination_condition)` string pair
pypsa's `solve_model` returns for each outcome; only a solved outcome has status
`"ok"`, which is the value `main` branches on. -/
def SolverOutcome.statusPair : SolverOutcome → String × String
  | .solved _ => ("ok", "optimal")
  | .infeasible => ("warning", "infeasible")
  | .unbounded => ("warning", "unbounded")
  | .solver_error => ("warning", "solver_error")

/-- The assignment carried by a solver outcome: present only when solved. -/
def SolverOutcome.assignment : SolverOutcome → Option Dispatch
  | .solved s => some s
  | _ => none

/-- `Model.optimize` of src/model.py: runs the solve and returns the solver's
status pair unchanged as a value (there is no exception path in the method). -/
def Model.optimize (o : SolverOutcome) : String × String := o.statusPair

/-- The network output state after `Model.optimize`: the assignment is written back
on a solved outcome, and the output frames stay empty otherwise. -/
def solveUpdate (net : Network) (o : SolverOutcome) : NetworkTState :=
  match o with
  | .solved s => afterSolve net s
  | _ => initialTState

/-- The result-handling branch of `main` in src/main.py: result extraction runs if
and only if `opt_state[0] == "ok"`; otherwise `main` only logs an error. -/
def mainFlow (net : Network) (o : SolverOutcome) :
    Option (Except PyError (ResultTable × NetworkTState)) :=
  if (Model.optimize o).1 == "ok" then some (Model.get_results net (solveUpdate net o))
  else none

/-- The battery-idle solution: every renewable off, the residual generator covering
the load exactly, the battery silent, capacity at its lower bound `p_nom_min`. -/
def idleSol (net : Network) : Dispatch :=
  { pv_p := List.replicate net.T 0
    wind_on_p := List.replicate net.T 0
    wind_off_p := List.replicate net.T 0
    biomass_p := List.replicate net.T 0
    hydro_p := List.replicate net.T 0
    residual_p := net.load_p_set
    bat_store := List.replicate net.T 0
    bat_dispatch := List.replicate net.T 0
    bat_soc := List.replicate net.T 0
    residual_p_nom_opt := net.residual_load.p_nom_min }

/-! ## Concrete instances

Instance A: one snapshot, 2 MW of pv fully available against a 1 MW load, no
battery; the unique optimum dispatches 1 MW of pv and curtails the other 1 MW.
Instance B: one snapshot, no renewables, no battery, a 1 MW load, a residual
minimum capacity of 5 MW and zero capital cost; capacity 6 is then also optimal. -/

def dfA : DataFrame :=
  ⟨[("pv_profile", [1]), ("wind_on_profile", [0]), ("wind_off_profile", [0]),
    ("biomass_profile", [0]), ("hydro_profile", [0]), ("load_profile", [1])]⟩

def argsA : ModelArgs :=
  { load := 1, pv_p_inst := 2, wind_on_p_inst := 0, wind_off_p_inst := 0,
    bio_p_inst := 0, hydro_p_inst := 0, batteries_p_inst := 0, batteries_duration := 0,
    charge_efficiency := 1, discharge_efficiency := 1, marginal_cost_residual := 100,
    capital_cost_residual := 1000, min_installed_cap_residual := 0 }

def netA : Network := mkNet dfA argsA [1] [0] [0] [0] [0] [1]

theorem buildA : Model.build dfA argsA = Except.ok netA := rfl

def solA : Dispatch :=
  { pv_p := [1], wind_on_p := [0], wind_off_p := [0], biomass_p := [0], hydro_p := [0],
    residual_p := [0], bat_store := [0], bat_dispatch := [0], bat_soc := [0],
    residual_p_nom_opt := 0 }

theorem sumOver_one (f : Nat → ℚ) : sumOver 1 f = f 0 := by
  simp [sumOver, List.range_succ]

theorem feasibleA : Feasible netA solA := by
  refine ⟨rfl, rfl, rfl, rfl, rfl, rfl, rfl, rfl, rfl, ?_, ?_⟩
  · norm_num [netA, mkNet, argsA, solA]
  · intro t ht
    have hT : netA.T = 1 := rfl
    rw [hT] at ht
    interval_cases t
    norm_num [netA, mkNet, argsA, dfA, solA, nth, prevIdx]

theorem optimalA : Optimal netA solA := by
  refine ⟨feasibleA, fun s2 hf => ?_⟩
  obtain ⟨-, -, -, -, -, -, -, -, -, hmin, hball⟩ := hf
  have hTA : netA.T = 1 := rfl
  have h0 := hball 0 (by rw [hTA]; exact Nat.one_pos)
  obtain ⟨⟨hpv0, hpv1⟩, ⟨hwon0, hwon1⟩, ⟨hwoff0, hwoff1⟩, ⟨hbio0, hbio1⟩,
    ⟨hhyd0, hhyd1⟩, ⟨hres0, hres1⟩, ⟨hst0, hst1⟩, ⟨hdi0, hdi1⟩, -, -, hbal⟩ := h0
  have epv : netA.pv.p_nom * nth netA.pv_pu 0 = 2 := by norm_num [netA, mkNet, argsA, nth]
  have ewon : netA.wind_on.p_nom * nth netA.wind_on_pu 0 = 0 := by
    norm_num [netA, mkNet, argsA, nth]
  have ewoff : netA.wind_off.p_nom * nth netA.wind_off_pu 0 = 0 := by
    norm_num [netA, mkNet, argsA, nth]
  have ebio : netA.biomass.p_nom * nth netA.biomass_pu 0 = 0 := by
    norm_num [netA, mkNet, argsA, nth]
  have ehyd : netA.hydro.p_nom * nth netA.hydro_pu 0 = 0 := by
    norm_num [netA, mkNet, argsA, nth]
  have ebat : netA.batteries.p_nom = 0 := rfl
  have emin : netA.residual_load.p_nom_min = 0 := rfl
  have eload : nth netA.load_p_set 0 = 1 := by norm_num [netA, mkNet, argsA, nth]
  rw [epv] at hpv1
  rw [ewon] at hwon1
  rw [ewoff] at hwoff1
  rw [ebio] at hbio1
  rw [ehyd] at hhyd1
  rw [ebat] at hst1 hdi1
  rw [emin] at hmin
  rw [eload] at hbal
  have hc2 : cost netA s2 =
      (1/10) * nth s2.pv_p 0 + (1/10) * nth s2.wind_on_p 0 + (1/10) * nth s2.wind_off_p 0
      + (1/10) * nth s2.biomass_p 0 + (1/10) * nth s2.hydro_p 0
      + 100 * nth s2.residual_p 0 + 1000 * s2.residual_p_nom_opt := by
    unfold cost
    rw [hTA, sumOver_one]
    norm_num [netA, mkNet, argsA]
  have hc1 : cost netA solA = 1/10 := by
    unfold cost
    rw [hTA, sumOver_one]
    norm_num [netA, mkNet, argsA, solA, nth]
  rw [hc1, hc2]
  linarith

def dfB : DataFrame :=
  ⟨[("pv_profile", [0]), ("wind_on_profile", [0]), ("wind_off_profile", [0]),
    ("biomass_profile", [0]), ("hydro_profile", [0]), ("load_profile", [1])]⟩

def argsB : ModelArgs :=
  { load := 1, pv_p_inst := 0, wind_on_p_inst := 0, wind_off_p_inst := 0,
    bio_p_inst := 0, hydro_p_inst := 0, batteries_p_inst := 0, batteries_duration := 0,
    charge_efficiency := 1, discharge_efficiency := 1, marginal_cost_residual := 1,
    capital_cost_residual := 0, min_installed_cap_residual := 5 }

def netB : Network := mkNet dfB argsB [0] [0] [0] [0] [0] [1]

theorem buildB : Model.build dfB argsB = Except.ok netB := rfl

/-- A solution of instance B with residual capacity strictly above the 5 MW minimum. -/
def solB : Dispatch :=
  { pv_p := [0], wind_on_p := [0], wind_off_p := [0], biomass_p := [0], hydro_p := [0],
    residual_p := [1], bat_store := [0], bat_dispatch := [0], bat_soc := [0],
    residual_p_nom_opt := 6 }

theorem feasibleB : Feasible netB solB := by
  refine ⟨rfl, rfl, rfl, rfl, rfl, rfl, rfl, rfl, rfl, ?_, ?_⟩
  · norm_num [netB, mkNet, argsB, solB]
  · intro t ht
    have hT : netB.T = 1 := rfl
    rw [hT] at ht
    interval_cases t
    norm_num [netB, mkNet, argsB, dfB, solB, nth, prevIdx]

theorem optimalB : Optimal netB solB := by
  refine ⟨feasibleB, fun s2 hf => ?_⟩
  obtain ⟨-, -, -, -, -, -, -, -, -, hmin, hball⟩ := hf
  have hTB : netB.T = 1 := rfl
  have h0 := hball 0 (by rw [hTB]; exact Nat.one_pos)
  obtain ⟨⟨hpv0, hpv1⟩, ⟨hwon0, hwon1⟩, ⟨hwoff0, hwoff1⟩, ⟨hbio0, hbio1⟩,
    ⟨hhyd0, hhyd1⟩, ⟨hres0, hres1⟩, ⟨hst0, hst1⟩, ⟨hdi0, hdi1⟩, -, -, hbal⟩ := h0
  have epv : netB.pv.p_nom * nth netB.pv_pu 0 = 0 := by norm_num [netB, mkNet, argsB, nth]
  have ewon : netB.wind_on.p_nom * nth netB.wind_on_pu 0 = 0 := by
    norm_num [netB, mkNet, argsB, nth]
  have ewoff : netB.wind_off.p_nom * nth netB.wind_off_pu 0 = 0 := by
    norm_num [netB, mkNet, argsB, nth]
  have ebio : netB.biomass.p_nom * nth netB.biomass_pu 0 = 0 := by
    norm_num [netB, mkNet, argsB, nth]
  have ehyd : netB.hydro.p_nom * nth netB.hydro_pu 0 = 0 := by
    norm_num [netB, mkNet, argsB, nth]
  have ebat : netB.batteries.p_nom = 0 := rfl
  have eload : nth netB.load_p_set 0 = 1 := by norm_num [netB, mkNet, argsB, nth]
  rw [epv] at hpv1
  rw [ewon] at hwon1
  rw [ewoff] at hwoff1
  rw [ebio] at hbio1
  rw [ehyd] at hhyd1
  rw [ebat] at hst1 hdi1
  rw [eload] at hbal
  have hc2 : cost netB s2 =
      (1/10) * nth s2.pv_p 0 + (1/10) * nth s2.wind_on_p 0 + (1/10) * nth s2.wind_off_p 0
      + (1/10) * nth s2.biomass_p 0 + (1/10) * nth s2.hydro_p 0
      + 1 * nth s2.residual_p 0 + 0 * s2.residual_p_nom_opt := by
    unfold cost
    rw [hTB, sumOver_one]
    norm_num [netB, mkNet, argsB]
  have hc1 : cost netB solB = 1 := by
    unfold cost
    rw [hTB, sumOver_one]
    norm_num [netB, mkNet, argsB, solB, nth]
  rw [hc1, hc2]
  linarith

/-! ## Pointwise reading of the derived columns -/

theorem nth_addL5 (a b c d e : List ℚ) (t : Nat) (ha : t < a.length) (hb : t < b.length)
    (hc : t < c.length) (hd : t < d.length) (he : t < e.length) :
    nth (addL (addL (addL (addL a b) c) d) e) t
      = nth a t + nth b t + nth c t + nth d t + nth e t := by
  have lab : t < (addL a b).length := by rw [length_addL]; exact lt_min ha hb
  have labc : t < (addL (addL a b) c).length := by rw [length_addL]; exact lt_min lab hc
  have labcd : t < (addL (addL (addL a b) c) d).length := by
    rw [length_addL]; exact lt_min labc hd
  rw [nth_addL _ _ _ labcd he, nth_addL _ _ _ labc hd, nth_addL _ _ _ lab hc,
    nth_addL _ _ _ ha hb]

theorem nth_reAvail (net : Network) (t : Nat)
    (h1 : t < net.pv_pu.length) (h2 : t < net.wind_on_pu.length)
    (h3 : t < net.wind_off_pu.length) (h4 : t < net.biomass_pu.length)
    (h5 : t < net.hydro_pu.length) :
    nth (reAvail net) t =
      nth net.pv_pu t * net.pv.p_nom + nth net.wind_on_pu t * net.wind_on.p_nom
      + nth net.wind_off_pu t * net.wind_off.p_nom
      + nth net.biomass_pu t * net.biomass.p_nom
      + nth net.hydro_pu t * net.hydro.p_nom := by
  unfold reAvail
  rw [nth_addL5 _ _ _ _ _ t (by simpa using h1) (by simpa using h2) (by simpa using h3)
    (by simpa using h4) (by simpa using h5),
    nth_map _ _ _ h1, nth_map _ _ _ h2, nth_map _ _ _ h3, nth_map _ _ _ h4, nth_map _ _ _ h5]

theorem nth_dispatchedRE (s : Dispatch) (t : Nat)
    (h1 : t < s.pv_p.length) (h2 : t < s.wind_on_p.length) (h3 : t < s.wind_off_p.length)
    (h4 : t < s.biomass_p.length) (h5 : t < s.hydro_p.length) :
    nth (dispatchedRE s) t =
      nth s.pv_p t + nth s.wind_on_p t + nth s.wind_off_p t
      + nth s.biomass_p t + nth s.hydro_p t := by
  unfold dispatchedRE
  exact nth_addL5 _ _ _ _ _ t h1 h2 h3 h4 h5

/-! ## Further concrete instances -/

/-- The network output state `Model.get_results` leaves behind on instance A. -/
def stA2 : NetworkTState :=
  { afterSolve netA solA with
    generators_t_p := (afterSolve netA solA).generators_t_p.setCol
      "actual_re_generation" (dispatchedRE solA) }

/-- An empty profile series that still carries the six required columns. -/
def dfEmptyCols : DataFrame :=
  ⟨[("pv_profile", []), ("wind_on_profile", []), ("wind_off_profile", []),
    ("biomass_profile", []), ("hydro_profile", []), ("load_profile", [])]⟩

/-- The scenario `main` passes to the constructor in src/main.py. -/
def argsMain : ModelArgs :=
  { load := 750000000, pv_p_inst := 215000, wind_on_p_inst := 115000,
    wind_off_p_inst := 30000, bio_p_inst := 5200, hydro_p_inst := 2100,
    batteries_p_inst := 25000, batteries_duration := 4, charge_efficiency := 0.90,
    discharge_efficiency := 1.0, marginal_cost_residual := 100,
    capital_cost_residual := 1000, min_installed_cap_residual := 0 }

/-! ## Claims -/

/-- Claim C2, counterexample: an empty Profile Series (the required six columns, no
rows) does NOT make model construction fail — `Model.__init__` performs no emptiness
check and no `ConfigurationError` class exists in the code, so construction succeeds
with a zero-length snapshot horizon. -/
theorem c2_counterexample :
    Model.build dfEmptyCols argsMain =
      Except.ok (mkNet dfEmptyCols argsMain [] [] [] [] [] []) ∧
    (mkNet dfEmptyCols argsMain [] [] [] [] [] []).T = 0 := ⟨rfl, rfl⟩

/-- Claim C2 (amended): model construction performs no emptiness validation.  Given
an empty profile table that still has the six required columns, construction
succeeds (with an empty horizon) for every scenario; given a completely empty table
(`pd.DataFrame()` as in `main`), construction fails before any solver invocation,
but with a pandas `KeyError` on `"pv_profile"` — the first column `add_generators`
reads — not with a `ConfigurationError`, which the code never defines. -/
theorem c2_amended (a : ModelArgs) :
    Model.build dfEmptyCols a = Except.ok (mkNet dfEmptyCols a [] [] [] [] [] []) ∧
    Model.build (DataFrame.mk []) a = Except.error (PyError.keyError "pv_profile") :=
  ⟨rfl, rfl⟩

/-- Claim C9: calling `get_results` on a model that has not been successfully
optimized fails: the network's `generators_t.p` frame has no columns, so the first
column access raises `KeyError("pv")` and no Result Table is returned. -/
theorem c9_get_results_unsolved (net : Network) (o : SolverOutcome)
    (h : ∀ s, o ≠ SolverOutcome.solved s) :
    Model.get_results net (solveUpdate net o) = Except.error (PyError.keyError "pv") := by
  cases o with
  | solved s => exact absurd rfl (h s)
  | infeasible => rfl
  | unbounded => rfl
  | solver_error => rfl

theorem c9_witness :
    (∀ s, SolverOutcome.infeasible ≠ SolverOutcome.solved s) ∧
    Model.get_results netA (solveUpdate netA SolverOutcome.infeasible) =
      Except.error (PyError.keyError "pv") :=
  ⟨fun _ h => SolverOutcome.noConfusion h,
   c9_get_results_unsolved netA SolverOutcome.infeasible (fun _ h => SolverOutcome.noConfusion h)⟩

/-- Claim C5: `Model.optimize` surfaces the solver outcome as a returned status value
(one of the four discriminated outcomes, only a solved one carrying status `"ok"`),
not as a thrown fault; every non-solved outcome carries no assignment, and `main`
performs result extraction only on status `"ok"`. -/
theorem c5_optimize_status (net : Network) (o : SolverOutcome) :
    (Model.optimize o = ("ok", "optimal") ∨ Model.optimize o = ("warning", "infeasible")
      ∨ Model.optimize o = ("warning", "unbounded")
      ∨ Model.optimize o = ("warning", "solver_error")) ∧
    ((Model.optimize o).1 = "ok" ↔ ∃ s, o = SolverOutcome.solved s) ∧
    ((∀ s, o ≠ SolverOutcome.solved s) →
      o.assignment = none ∧ mainFlow net o = none) := by
  cases o <;>
    simp [Model.optimize, SolverOutcome.statusPair, SolverOutcome.assignment, mainFlow]

theorem c5_witness :
    (Model.optimize SolverOutcome.infeasible = ("ok", "optimal")
      ∨ Model.optimize SolverOutcome.infeasible = ("warning", "infeasible")
      ∨ Model.optimize SolverOutcome.infeasible = ("warning", "unbounded")
      ∨ Model.optimize SolverOutcome.infeasible = ("warning", "solver_error")) ∧
    ((Model.optimize SolverOutcome.infeasible).1 = "ok"
      ↔ ∃ s, SolverOutcome.infeasible = SolverOutcome.solved s) ∧
    ((∀ s, SolverOutcome.infeasible ≠ SolverOutcome.solved s) →
      SolverOutcome.infeasible.assignment = none ∧ mainFlow netB SolverOutcome.infeasible = none) :=
  c5_optimize_status netB SolverOutcome.infeasible

/-- Claim C3, counterexample: result extraction is NOT free of side effects on the
solved network.  On the solved instance A, `get_results` succeeds but hands back a
network state whose stored `generators_t.p` frame differs from the one it was given:
the pandas column assignment on the aliased frame appended an
`actual_re_generation` column. -/
theorem c3_counterexample :
    Optimal netA solA ∧
    Model.get_results netA (afterSolve netA solA) = Except.ok (solvedTable netA solA, stA2) ∧
    stA2.generators_t_p ≠ (afterSolve netA solA).generators_t_p := by
  refine ⟨optimalA, get_results_afterSolve netA solA, fun h => ?_⟩
  have h7 : stA2.generators_t_p.columns.length = 7 := rfl
  rw [h] at h7
  exact absurd h7 (by decide)

/-- Claim C3 (amended): `get_results` produces the Result Table as a function of the
network and the solved assignment, but it is not side-effect free: it mutates the
network's stored `generators_t.p` frame by appending the derived
`actual_re_generation` column (a pandas aliasing effect of
`df_actual_generation = self.network.generators_t.p`); the stored load and
storage-unit time series are left unchanged, and this is the only state change. -/
theorem c3_amended (net : Network) (s : Dispatch) :
    Model.get_results net (afterSolve net s) =
      Except.ok (solvedTable net s,
        { afterSolve net s with
          generators_t_p := (afterSolve net s).generators_t_p.setCol
            "actual_re_generation" (dispatchedRE s) }) ∧
    (afterSolve net s).generators_t_p.setCol "actual_re_generation" (dispatchedRE s)
      ≠ (afterSolve net s).generators_t_p := by
  refine ⟨get_results_afterSolve net s, fun h => ?_⟩
  have h7 : ((afterSolve net s).generators_t_p.setCol "actual_re_generation"
      (dispatchedRE s)).columns.length = 7 := rfl
  have h6 : (afterSolve net s).generators_t_p.columns.length = 6 := rfl
  rw [h] at h7
  rw [h7] at h6
  exact absurd h6 (by decide)

theorem dfA_WF : DataFrame.WF dfA := by decide

theorem dfB_WF : DataFrame.WF dfB := by decide

/-- Claim C6: in every solution of the built model, for every timestep the energy
balance holds — the dispatched fixed generators plus the residual dispatch plus the
battery net power equal the load, which is `load_profile(t) * load`. -/
theorem c6_energy_balance (df : DataFrame) (a : ModelArgs) (net : Network) (sol : Dispatch)
    (hWF : DataFrame.WF df) (hb : Model.build df a = Except.ok net) (hf : Feasible net sol) :
    ∀ t, t < net.T →
      nth sol.pv_p t + nth sol.wind_on_p t + nth sol.wind_off_p t + nth sol.biomass_p t
        + nth sol.hydro_p t + nth sol.residual_p t
        + (nth sol.bat_dispatch t - nth sol.bat_store t) = nth net.load_p_set t ∧
      nth net.load_p_set t = nth ((df.get? "load_profile").getD []) t * a.load := by
  obtain ⟨pvl, wonl, woffl, biol, hydl, loadl, h1, h2, h3, h4, h5, h6, rfl⟩ := build_ok_elim hb
  obtain ⟨-, -, -, -, -, -, -, -, -, -, hball⟩ := hf
  intro t ht
  refine ⟨(hball t ht).2.2.2.2.2.2.2.2.2.2, ?_⟩
  rw [h6]
  have hlen : loadl.length = df.nrows := WF_get?_length hWF h6
  have ht2 : t < loadl.length := by rw [hlen]; exact ht
  show nth (loadl.map (fun x => x * a.load)) t = nth loadl t * a.load
  rw [nth_map _ _ _ ht2]

theorem c6_witness :
    Feasible netA solA ∧
    (∀ t, t < netA.T →
      nth solA.pv_p t + nth solA.wind_on_p t + nth solA.wind_off_p t + nth solA.biomass_p t
        + nth solA.hydro_p t + nth solA.residual_p t
        + (nth solA.bat_dispatch t - nth solA.bat_store t) = nth netA.load_p_set t ∧
      nth netA.load_p_set t = nth ((dfA.get? "load_profile").getD []) t * argsA.load) :=
  ⟨feasibleA, c6_energy_balance dfA argsA netA solA dfA_WF buildA feasibleA⟩

/-- Claim C7: in every solution of the built model, the battery state of charge is
cyclic (the first state of charge wraps the last timestep's transition, including
the standing loss) and stays within `0 ≤ soc(t) ≤ battery_power * battery_duration`. -/
theorem c7_soc_cyclic_bounds (df : DataFrame) (a : ModelArgs) (net : Network) (sol : Dispatch)
    (hb : Model.build df a = Except.ok net) (hf : Feasible net sol) :
    (0 < net.T →
      nth sol.bat_soc 0 = (1 - 0.0001) * nth sol.bat_soc (net.T - 1)
        + a.charge_efficiency * nth sol.bat_store 0
        - nth sol.bat_dispatch 0 / a.discharge_efficiency) ∧
    (∀ t, t < net.T →
      0 ≤ nth sol.bat_soc t ∧
      nth sol.bat_soc t ≤ a.batteries_p_inst * a.batteries_duration) := by
  obtain ⟨pvl, wonl, woffl, biol, hydl, loadl, h1, h2, h3, h4, h5, h6, rfl⟩ := build_ok_elim hb
  obtain ⟨-, -, -, -, -, -, -, -, -, -, hball⟩ := hf
  constructor
  · intro hT
    have h0 := (hball 0 hT).2.2.2.2.2.2.2.2.2.1
    have hprev : prevIdx (mkNet df a pvl wonl woffl biol hydl loadl).T 0
        = (mkNet df a pvl wonl woffl biol hydl loadl).T - 1 := by
      unfold prevIdx
      rw [Nat.zero_add]
      exact Nat.mod_eq_of_lt (Nat.sub_lt hT Nat.one_pos)
    rw [hprev] at h0
    exact h0
  · intro t ht
    have hsoc := (hball t ht).2.2.2.2.2.2.2.2.1
    refine ⟨hsoc.1, ?_⟩
    have h2 := hsoc.2
    rw [mul_comm]
    exact h2

theorem c7_witness :
    Feasible netA solA ∧
    ((0 < netA.T →
      nth solA.bat_soc 0 = (1 - 0.0001) * nth solA.bat_soc (netA.T - 1)
        + argsA.charge_efficiency * nth solA.bat_store 0
        - nth solA.bat_dispatch 0 / argsA.discharge_efficiency) ∧
    (∀ t, t < netA.T →
      0 ≤ nth solA.bat_soc t ∧
      nth solA.bat_soc t ≤ argsA.batteries_p_inst * argsA.batteries_duration)) :=
  ⟨feasibleA, c7_soc_cyclic_bounds dfA argsA netA solA buildA feasibleA⟩

/-- Claim C10: whatever arguments the public constructor receives, the battery is
built with the hard-coded standing loss 0.0001 (not a constructor parameter), and
every solution's state-of-charge transition applies that leakage at every timestep. -/
theorem c10_fixed_standing_loss (df : DataFrame) (a : ModelArgs) (net : Network)
    (hb : Model.build df a = Except.ok net) :
    net.batteries.standing_loss = 0.0001 ∧
    (∀ sol, Feasible net sol → ∀ t, t < net.T →
      nth sol.bat_soc t = (1 - 0.0001) * nth sol.bat_soc (prevIdx net.T t)
        + a.charge_efficiency * nth sol.bat_store t
        - nth sol.bat_dispatch t / a.discharge_efficiency) := by
  obtain ⟨pvl, wonl, woffl, biol, hydl, loadl, h1, h2, h3, h4, h5, h6, rfl⟩ := build_ok_elim hb
  refine ⟨rfl, fun sol hf t ht => ?_⟩
  obtain ⟨-, -, -, -, -, -, -, -, -, -, hball⟩ := hf
  exact (hball t ht).2.2.2.2.2.2.2.2.2.1

theorem c10_witness :
    netA.batteries.standing_loss = 0.0001 ∧
    (∀ sol, Feasible netA sol → ∀ t, t < netA.T →
      nth sol.bat_soc t = (1 - 0.0001) * nth sol.bat_soc (prevIdx netA.T t)
        + argsA.charge_efficiency * nth sol.bat_store t
        - nth sol.bat_dispatch t / argsA.discharge_efficiency) :=
  c10_fixed_standing_loss dfA argsA netA buildA

/-- Claim C4: the `curtailed_re` column equals the total available renewable power
(installed capacity times availability fraction, summed over the five technologies)
minus the total actually dispatched renewable power, and is nonnegative in every
solution. -/
theorem c4_curtailed_re (df : DataFrame) (a : ModelArgs) (net : Network) (sol : Dispatch)
    (tbl : ResultTable) (st2 : NetworkTState) (hWF : DataFrame.WF df)
    (hb : Model.build df a = Except.ok net) (hf : Feasible net sol)
    (hg : Model.get_results net (afterSolve net sol) = Except.ok (tbl, st2)) :
    ∀ t, t < net.T →
      nth tbl.curtailed_re t =
        (a.pv_p_inst * nth net.pv_pu t + a.wind_on_p_inst * nth net.wind_on_pu t
          + a.wind_off_p_inst * nth net.wind_off_pu t + a.bio_p_inst * nth net.biomass_pu t
          + a.hydro_p_inst * nth net.hydro_pu t)
        - (nth sol.pv_p t + nth sol.wind_on_p t + nth sol.wind_off_p t
          + nth sol.biomass_p t + nth sol.hydro_p t) ∧
      0 ≤ nth tbl.curtailed_re t := by
  obtain ⟨pvl, wonl, woffl, biol, hydl, loadl, h1, h2, h3, h4, h5, h6, rfl⟩ := build_ok_elim hb
  rw [get_results_afterSolve] at hg
  have htbl : tbl = solvedTable (mkNet df a pvl wonl woffl biol hydl loadl) sol :=
    (congrArg Prod.fst (Except.ok.inj hg)).symm
  subst htbl
  obtain ⟨kl1, kl2, kl3, kl4, kl5, kl6, kl7, kl8, kl9, -, hball⟩ := hf
  intro t ht
  have lpv : pvl.length = df.nrows := WF_get?_length hWF h1
  have lwon : wonl.length = df.nrows := WF_get?_length hWF h2
  have lwoff : woffl.length = df.nrows := WF_get?_length hWF h3
  have lbio : biol.length = df.nrows := WF_get?_length hWF h4
  have lhyd : hydl.length = df.nrows := WF_get?_length hWF h5
  have kl1n : sol.pv_p.length = df.nrows := kl1
  have kl2n : sol.wind_on_p.length = df.nrows := kl2
  have kl3n : sol.wind_off_p.length = df.nrows := kl3
  have kl4n : sol.biomass_p.length = df.nrows := kl4
  have kl5n : sol.hydro_p.length = df.nrows := kl5
  have htn : t < df.nrows := ht
  have hreln : t < (reAvail (mkNet df a pvl wonl woffl biol hydl loadl)).length := by
    simp only [reAvail, length_addL, List.length_map, mkNet]
    omega
  have hdisn : t < (dispatchedRE sol).length := by
    simp only [dispatchedRE, length_addL]
    omega
  have hcurt : nth (solvedTable (mkNet df a pvl wonl woffl biol hydl loadl) sol).curtailed_re t
      = nth (reAvail (mkNet df a pvl wonl woffl biol hydl loadl)) t
        - nth (dispatchedRE sol) t := by
    show nth (subL (reAvail (mkNet df a pvl wonl woffl biol hydl loadl))
      (dispatchedRE sol)) t = _
    exact nth_subL _ _ t hreln hdisn
  have hpvt : t < pvl.length := by omega
  have hwont : t < wonl.length := by omega
  have hwofft : t < woffl.length := by omega
  have hbiot : t < biol.length := by omega
  have hhydt : t < hydl.length := by omega
  have hspv : t < sol.pv_p.length := by omega
  have hswon : t < sol.wind_on_p.length := by omega
  have hswoff : t < sol.wind_off_p.length := by omega
  have hsbio : t < sol.biomass_p.length := by omega
  have hshyd : t < sol.hydro_p.length := by omega
  have hrA := nth_reAvail (mkNet df a pvl wonl woffl biol hydl loadl) t
    hpvt hwont hwofft hbiot hhydt
  have hdE := nth_dispatchedRE sol t hspv hswon hswoff hsbio hshyd
  obtain ⟨⟨-, hpv1⟩, ⟨-, hwon1⟩, ⟨-, hwoff1⟩, ⟨-, hbio1⟩, ⟨-, hhyd1⟩, -, -, -, -, -, -⟩ :=
    hball t ht
  constructor
  · rw [hcurt, hrA, hdE]
    simp only [mkNet]
    ring
  · rw [hcurt, hrA, hdE]
    simp only [mkNet] at hpv1 hwon1 hwoff1 hbio1 hhyd1 ⊢
    ring_nf
    ring_nf at hpv1 hwon1 hwoff1 hbio1 hhyd1
    linarith

theorem c4_witness :
    Feasible netA solA ∧
    (∀ t, t < netA.T →
      nth (solvedTable netA solA).curtailed_re t =
        (argsA.pv_p_inst * nth netA.pv_pu t + argsA.wind_on_p_inst * nth netA.wind_on_pu t
          + argsA.wind_off_p_inst * nth netA.wind_off_pu t
          + argsA.bio_p_inst * nth netA.biomass_pu t
          + argsA.hydro_p_inst * nth netA.hydro_pu t)
        - (nth solA.pv_p t + nth solA.wind_on_p t + nth solA.wind_off_p t
          + nth solA.biomass_p t + nth solA.hydro_p t) ∧
      0 ≤ nth (solvedTable netA solA).curtailed_re t) :=
  ⟨feasibleA, c4_curtailed_re dfA argsA netA solA (solvedTable netA solA) stA2 dfA_WF
    buildA feasibleA (get_results_afterSolve netA solA)⟩

/-- Claim C1, counterexample: on the solved instance A (2 MW pv against a 1 MW load,
optimal solution dispatches 1 MW pv, residual dispatch 0, no battery flow), the
`residual_load` column holds `-1` — `load - AVAILABLE renewables - battery` — while
`load - dispatched renewables - battery net power` is `0`, which is also the value
of `residual_dispatch(0)`.  The extracted column therefore equals neither quantity
named by the claim. -/
theorem c1_counterexample :
    Optimal netA solA ∧
    Model.get_results netA (afterSolve netA solA) = Except.ok (solvedTable netA solA, stA2) ∧
    nth (solvedTable netA solA).residual_load 0 = -1 ∧
    nth netA.load_p_set 0
      - (nth solA.pv_p 0 + nth solA.wind_on_p 0 + nth solA.wind_off_p 0
        + nth solA.biomass_p 0 + nth solA.hydro_p 0)
      - (nth solA.bat_dispatch 0 - nth solA.bat_store 0) = 0 ∧
    nth solA.residual_p 0 = 0 := by
  refine ⟨optimalA, get_results_afterSolve netA solA, ?_, ?_, rfl⟩
  · norm_num [solvedTable, reAvail, dispatchedRE, subL, addL, netA, mkNet, argsA, solA, nth]
  · norm_num [netA, mkNet, argsA, solA, nth]

/-- Claim C1 (amended): the `residual_load` column equals
`load - total AVAILABLE renewable power - battery net power` (the code subtracts
`re_power_availability`, not the dispatched generation), which by the energy-balance
constraint equals `residual_dispatch(t) - curtailed_re(t)`; it coincides with
`residual_dispatch(t)` only at timesteps without curtailment and goes negative when
curtailment exceeds the residual dispatch. -/
theorem c1_residual_load_column (df : DataFrame) (a : ModelArgs) (net : Network)
    (sol : Dispatch) (tbl : ResultTable) (st2 : NetworkTState) (hWF : DataFrame.WF df)
    (hb : Model.build df a = Except.ok net) (hf : Feasible net sol)
    (hg : Model.get_results net (afterSolve net sol) = Except.ok (tbl, st2)) :
    ∀ t, t < net.T →
      nth tbl.residual_load t
        = nth net.load_p_set t - nth (reAvail net) t
          - (nth sol.bat_dispatch t - nth sol.bat_store t) ∧
      nth tbl.residual_load t = nth sol.residual_p t - nth tbl.curtailed_re t := by
  obtain ⟨pvl, wonl, woffl, biol, hydl, loadl, h1, h2, h3, h4, h5, h6, rfl⟩ := build_ok_elim hb
  rw [get_results_afterSolve] at hg
  have htbl : tbl = solvedTable (mkNet df a pvl wonl woffl biol hydl loadl) sol :=
    (congrArg Prod.fst (Except.ok.inj hg)).symm
  subst htbl
  obtain ⟨kl1, kl2, kl3, kl4, kl5, kl6, kl7, kl8, kl9, -, hball⟩ := hf
  intro t ht
  have lpv : pvl.length = df.nrows := WF_get?_length hWF h1
  have lwon : wonl.length = df.nrows := WF_get?_length hWF h2
  have lwoff : woffl.length = df.nrows := WF_get?_length hWF h3
  have lbio : biol.length = df.nrows := WF_get?_length hWF h4
  have lhyd : hydl.length = df.nrows := WF_get?_length hWF h5
  have lload : loadl.length = df.nrows := WF_get?_length hWF h6
  have kl1n : sol.pv_p.length = df.nrows := kl1
  have kl2n : sol.wind_on_p.length = df.nrows := kl2
  have kl3n : sol.wind_off_p.length = df.nrows := kl3
  have kl4n : sol.biomass_p.length = df.nrows := kl4
  have kl5n : sol.hydro_p.length = df.nrows := kl5
  have kl7n : sol.bat_store.length = df.nrows := kl7
  have kl8n : sol.bat_dispatch.length = df.nrows := kl8
  have htn : t < df.nrows := ht
  have hlpn : (mkNet df a pvl wonl woffl biol hydl loadl).load_p_set.length = df.nrows := by
    simp only [mkNet, List.length_map]
    exact lload
  have hreln : t < (reAvail (mkNet df a pvl wonl woffl biol hydl loadl)).length := by
    simp only [reAvail, length_addL, List.length_map, mkNet]
    omega
  have hdisn : t < (dispatchedRE sol).length := by
    simp only [dispatchedRE, length_addL]
    omega
  have hbatn : t < (subL sol.bat_dispatch sol.bat_store).length := by
    rw [length_subL]
    omega
  have hsubn : t < (subL (mkNet df a pvl wonl woffl biol hydl loadl).load_p_set
      (reAvail (mkNet df a pvl wonl woffl biol hydl loadl))).length := by
    rw [length_subL]
    rw [hlpn]
    omega
  have hloadn : t < (mkNet df a pvl wonl woffl biol hydl loadl).load_p_set.length := by
    rw [hlpn]
    exact htn
  have hres_eq : nth (solvedTable (mkNet df a pvl wonl woffl biol hydl loadl) sol).residual_load t
      = nth (mkNet df a pvl wonl woffl biol hydl loadl).load_p_set t
        - nth (reAvail (mkNet df a pvl wonl woffl biol hydl loadl)) t
        - (nth sol.bat_dispatch t - nth sol.bat_store t) := by
    show nth (subL (subL (mkNet df a pvl wonl woffl biol hydl loadl).load_p_set
      (reAvail (mkNet df a pvl wonl woffl biol hydl loadl)))
      (subL sol.bat_dispatch sol.bat_store)) t = _
    rw [nth_subL _ _ t hsubn hbatn, nth_subL _ _ t hloadn hreln,
      nth_subL _ _ t (by omega) (by omega)]
  have hcurt_eq : nth (solvedTable (mkNet df a pvl wonl woffl biol hydl loadl) sol).curtailed_re t
      = nth (reAvail (mkNet df a pvl wonl woffl biol hydl loadl)) t
        - nth (dispatchedRE sol) t := by
    show nth (subL (reAvail (mkNet df a pvl wonl woffl biol hydl loadl))
      (dispatchedRE sol)) t = _
    exact nth_subL _ _ t hreln hdisn
  have hdE := nth_dispatchedRE sol t (by omega) (by omega) (by omega) (by omega) (by omega)
  have hbal := (hball t ht).2.2.2.2.2.2.2.2.2.2
  refine ⟨hres_eq, ?_⟩
  rw [hres_eq, hcurt_eq, hdE]
  linarith

theorem c1_witness :
    Feasible netA solA ∧
    (∀ t, t < netA.T →
      nth (solvedTable netA solA).residual_load t
        = nth netA.load_p_set t - nth (reAvail netA) t
          - (nth solA.bat_dispatch t - nth solA.bat_store t) ∧
      nth (solvedTable netA solA).residual_load t
        = nth solA.residual_p t - nth (solvedTable netA solA).curtailed_re t) :=
  ⟨feasibleA, c1_residual_load_column dfA argsA netA solA (solvedTable netA solA) stA2
    dfA_WF buildA feasibleA (get_results_afterSolve netA solA)⟩

/-- Claim C8, counterexample: on instance B the residual minimum capacity (5 MW)
exceeds every load value (1 MW) and the capital cost is zero; `solB`, with residual
capacity 6 MW, is then also an optimal solution the solver may return, so the
returned residual capacity need not equal `min_installed_cap_residual`. -/
theorem c8_counterexample :
    Optimal netB solB ∧
    netB.residual_load.p_nom_min = 5 ∧
    netB.T = 1 ∧
    nth netB.load_p_set 0 = 1 ∧
    solB.residual_p_nom_opt = 6 := by
  refine ⟨optimalB, rfl, rfl, ?_, rfl⟩
  norm_num [netB, mkNet, argsB, nth]

/-- Claim C8 (amended): in every solution the optimized residual capacity is at
least `min_installed_cap_residual`; and for every scenario with nonnegative
capacities and availability profiles in which `min_installed_cap_residual` is at
least every load value, the model stays feasible — the battery-idle dispatch with
residual capacity exactly `min_installed_cap_residual` is a feasible solution — so
the solve still succeeds.  The returned capacity itself, however, is only
guaranteed to EQUAL the minimum up to solver choice among optima: with zero capital
cost a strictly larger capacity can be optimal as well (see the counterexample). -/
theorem c8_residual_capacity (df : DataFrame) (a : ModelArgs) (net : Network)
    (sol : Dispatch) (hWF : DataFrame.WF df) (hb : Model.build df a = Except.ok net)
    (hf : Feasible net sol)
    (hcap : 0 ≤ a.pv_p_inst ∧ 0 ≤ a.wind_on_p_inst ∧ 0 ≤ a.wind_off_p_inst
      ∧ 0 ≤ a.bio_p_inst ∧ 0 ≤ a.hydro_p_inst ∧ 0 ≤ a.batteries_p_inst
      ∧ 0 ≤ a.batteries_duration)
    (hpu : ∀ t, t < net.T → 0 ≤ nth net.pv_pu t ∧ 0 ≤ nth net.wind_on_pu t
      ∧ 0 ≤ nth net.wind_off_pu t ∧ 0 ≤ nth net.biomass_pu t ∧ 0 ≤ nth net.hydro_pu t)
    (hload : ∀ t, t < net.T → 0 ≤ nth net.load_p_set t
      ∧ nth net.load_p_set t ≤ a.min_installed_cap_residual) :
    a.min_installed_cap_residual ≤ sol.residual_p_nom_opt ∧
    Feasible net (idleSol net) ∧
    (idleSol net).residual_p_nom_opt = a.min_installed_cap_residual := by
  obtain ⟨pvl, wonl, woffl, biol, hydl, loadl, h1, h2, h3, h4, h5, h6, rfl⟩ := build_ok_elim hb
  obtain ⟨hc1, hc2, hc3, hc4, hc5, hc6, hc7⟩ := hcap
  have lload : loadl.length = df.nrows := WF_get?_length hWF h6
  refine ⟨hf.2.2.2.2.2.2.2.2.2.1, ?_, rfl⟩
  refine ⟨?_, ?_, ?_, ?_, ?_, ?_, ?_, ?_, ?_, le_refl _, ?_⟩
  · simp [idleSol]
  · simp [idleSol]
  · simp [idleSol]
  · simp [idleSol]
  · simp [idleSol]
  · show (mkNet df a pvl wonl woffl biol hydl loadl).load_p_set.length = _
    simp only [mkNet, List.length_map]
    exact lload
  · simp [idleSol]
  · simp [idleSol]
  · simp [idleSol]
  · intro t ht
    obtain ⟨hp1, hp2, hp3, hp4, hp5⟩ := hpu t ht
    obtain ⟨hl0, hl1⟩ := hload t ht
    simp only [idleSol, nth_replicate]
    exact ⟨⟨le_refl 0, mul_nonneg hc1 hp1⟩, ⟨le_refl 0, mul_nonneg hc2 hp2⟩,
      ⟨le_refl 0, mul_nonneg hc3 hp3⟩, ⟨le_refl 0, mul_nonneg hc4 hp4⟩,
      ⟨le_refl 0, mul_nonneg hc5 hp5⟩, ⟨hl0, hl1⟩, ⟨le_refl 0, hc6⟩, ⟨le_refl 0, hc6⟩,
      ⟨le_refl 0, mul_nonneg hc7 hc6⟩, by simp, by ring⟩

theorem capsB_nonneg :
    0 ≤ argsB.pv_p_inst ∧ 0 ≤ argsB.wind_on_p_inst ∧ 0 ≤ argsB.wind_off_p_inst
      ∧ 0 ≤ argsB.bio_p_inst ∧ 0 ≤ argsB.hydro_p_inst ∧ 0 ≤ argsB.batteries_p_inst
      ∧ 0 ≤ argsB.batteries_duration := by
  norm_num [argsB]

theorem puB_nonneg :
    ∀ t, t < netB.T → 0 ≤ nth netB.pv_pu t ∧ 0 ≤ nth netB.wind_on_pu t
      ∧ 0 ≤ nth netB.wind_off_pu t ∧ 0 ≤ nth netB.biomass_pu t ∧ 0 ≤ nth netB.hydro_pu t := by
  intro t ht
  have hT : netB.T = 1 := rfl
  rw [hT] at ht
  interval_cases t
  norm_num [netB, mkNet, argsB, nth]

theorem loadB_bounds :
    ∀ t, t < netB.T → 0 ≤ nth netB.load_p_set t
      ∧ nth netB.load_p_set t ≤ argsB.min_installed_cap_residual := by
  intro t ht
  have hT : netB.T = 1 := rfl
  rw [hT] at ht
  interval_cases t
  norm_num [netB, mkNet, argsB, nth]

theorem c8_witness :
    Feasible netB solB ∧
    (argsB.min_installed_cap_residual ≤ solB.residual_p_nom_opt ∧
     Feasible netB (idleSol netB) ∧
     (idleSol netB).residual_p_nom_opt = argsB.min_installed_cap_residual) :=
  ⟨feasibleB, c8_residual_capacity dfB argsB netB solB dfB_WF buildB feasibleB
    capsB_nonneg puB_nonneg loadB_bounds⟩

theorem c2_witness :
    Model.build dfEmptyCols argsMain =
      Except.ok (mkNet dfEmptyCols argsMain [] [] [] [] [] []) ∧
    Model.build (DataFrame.mk []) argsMain = Except.error (PyError.keyError "pv_profile") :=
  c2_amended argsMain

theorem c3_witness :
    Model.get_results netA (afterSolve netA solA) =
      Except.ok (solvedTable netA solA,
        { afterSolve netA solA with
          generators_t_p := (afterSolve netA solA).generators_t_p.setCol
            "actual_re_generation" (dispatchedRE solA) }) ∧
    (afterSolve netA solA).generators_t_p.setCol "actual_re_generation" (dispatchedRE solA)
      ≠ (afterSolve netA solA).generators_t_p :=
  c3_amended netA solA
